import Mathlib

/-
Verification of the conan-deploy-tool deployment pipeline.

The development shallowly embeds `conan_deploy_tool.py`:

* `Generator.init` (source lines 31-61): parses the dependency manifest and
  accumulates relative library/binary directories plus the copy maps.
  The filesystem is abstracted by `listdir : String → Option (List String)`
  (Python `os.listdir`: `none` models a missing directory, which raises
  `FileNotFoundError`; `some l` is the directory listing) and the Python
  standard-library function `os.path.relpath` is abstracted by a parameter
  `relpath : String → String → String`, since no property below depends on
  its internals.  Python sets and dicts are modelled by insertion-ordered
  lists (`setAdd`, `dictInsert`), matching CPython's dict semantics; set
  iteration order is fixed to insertion order, a deterministic refinement
  the spec itself asks for.
* `DirectoryGenerator.invoke` (lines 120-129): the staging routine.  The
  body of its first loop reads the undefined name `dst_lib_dir`, so an
  iteration of that loop raises `NameError`; the embedding returns
  `Except.error` exactly when `_dep_lib_dirs` is non-empty.  Directory
  contents are modelled as finite association lists of (file name, content)
  pairs, a destination tree as a function from relative directory to its
  contents, and `distutils.dir_util.copy_tree` as a merging fold.
* `Generator._chmod_plus_x`, `Generator._run`, `_create_entry_point`, the
  Flatpak packaging steps, the manifest-cache handling of `init`/`main`,
  the effect sequence of `main` and of `AppImageGenerator.run`.
-/

/-- One element of the `dependencies` array of `conanbuildinfo.json`. -/
structure Dependency where
  rootpath : String
  lib_paths : List String
  bin_paths : List String
deriving DecidableEq

/-- The parsed dependency manifest. -/
structure Manifest where
  dependencies : List Dependency
deriving DecidableEq

/-- The `general` section of the INI configuration file. -/
structure Config where
  name : String
  executable : String
deriving DecidableEq

/-- The generator state produced by `Generator.init`
(fields `_name`, `_executable`, `_bin_dirs`, `_lib_dirs`,
`_dep_lib_dirs`, `_dep_bin_dirs` of the Python object). -/
structure GenState where
  name : String
  executable : String
  bin_dirs : List String
  lib_dirs : List String
  dep_lib_dirs : List (String × String)
  dep_bin_dirs : List (String × String)
deriving DecidableEq

/-- Python `set.add` on an insertion-ordered representation. -/
def setAdd (s : List String) (x : String) : List String :=
  if x ∈ s then s else s ++ [x]

/-- Python `dict[k] = v`: update in place when the key exists
(preserving insertion order), append otherwise. -/
def dictInsert : List (String × String) → String → String → List (String × String)
  | [], k, v => [(k, v)]
  | p :: d, k, v => if p.1 = k then (k, v) :: d else p :: dictInsert d k v

/-- The body of the `for lib_path in lib_paths` loop of `Generator.init`
(lines 52-56).  `os.listdir` on a missing directory raises, modelled by
`Except.error`; an empty listing is falsy, so the path is skipped.  NOTE:
the source stores the entry in `self._dep_bin_dirs` (line 56), not in
`self._dep_lib_dirs` — the embedding reproduces this faithfully. -/
def processLibPath (relpath : String → String → String)
    (listdir : String → Option (List String)) (root : String)
    (st : GenState) (lib_path : String) : Except String GenState :=
  match listdir lib_path with
  | none => .error ("FileNotFoundError: " ++ lib_path)
  | some entries =>
    if entries.isEmpty then .ok st
    else
      let lib_dir := relpath lib_path root
      .ok { st with lib_dirs := setAdd st.lib_dirs lib_dir,
                    dep_bin_dirs := dictInsert st.dep_bin_dirs lib_path lib_dir }

/-- The body of the `for bin_path in bin_paths` loop of `Generator.init`
(lines 57-61). -/
def processBinPath (relpath : String → String → String)
    (listdir : String → Option (List String)) (root : String)
    (st : GenState) (bin_path : String) : Except String GenState :=
  match listdir bin_path with
  | none => .error ("FileNotFoundError: " ++ bin_path)
  | some entries =>
    if entries.isEmpty then .ok st
    else
      let bin_dir := relpath bin_path root
      .ok { st with bin_dirs := setAdd st.bin_dirs bin_dir,
                    dep_bin_dirs := dictInsert st.dep_bin_dirs bin_path bin_dir }

/-- The body of the `for dep in data["dependencies"]` loop (lines 47-61). -/
def initDep (relpath : String → String → String)
    (listdir : String → Option (List String))
    (st : GenState) (dep : Dependency) : Except String GenState := do
  let st2 ← dep.lib_paths.foldlM (processLibPath relpath listdir dep.rootpath) st
  dep.bin_paths.foldlM (processBinPath relpath listdir dep.rootpath) st2

/-- `Generator.init` (lines 31-61), restricted to its manifest-processing
part; the `conanbuildinfo.json` cache handling of lines 36-40 is modelled
separately by `initResolveStep`/`mainCacheRun` below. -/
def Generator.init (relpath : String → String → String)
    (listdir : String → Option (List String))
    (config : Config) (m : Manifest) : Except String GenState :=
  m.dependencies.foldlM (initDep relpath listdir)
    { name := config.name, executable := config.executable,
      bin_dirs := [], lib_dirs := [], dep_lib_dirs := [], dep_bin_dirs := [] }

/-- First character of a string is a slash. -/
def headIsSlash (s : String) : Bool :=
  match s.data with
  | [] => false
  | c :: _ => c = '/'

/-- Last character of a string is a slash. -/
def lastIsSlash (s : String) : Bool :=
  match s.data.getLast? with
  | none => false
  | some c => c = '/'

/-- `os.path.join` for two components (POSIX flavour): an absolute second
component wins; otherwise the components are joined with a separating
slash unless one is already there. -/
def joinPath (a b : String) : String :=
  if headIsSlash b then b
  else if a = "" ∨ lastIsSlash a then a ++ b
  else a ++ "/" ++ b

/-- Contents of one directory: file name → file content, as a lookup
function.  Source directories, which the code iterates, are association
lists `List (String × String)` instead. -/
abbrev DirContents := String → Option String

/-- A staging destination tree: relative directory → its contents. -/
abbrev DestTree := String → DirContents

def emptyDest : DestTree := fun _ _ => none

/-- `distutils.dir_util.copy_tree src dst`: write every file of `src`
into `dst`, overwriting same-named files and keeping the rest. -/
def copy_tree (src : List (String × String)) (dst : DirContents) : DirContents :=
  src.foldl (fun d f => fun n => if n = f.1 then some f.2 else d n) dst

/-- One iteration of the copy loop of `DirectoryGenerator.invoke`:
`copy_tree(src_dir, os.path.join(destination, dst_dir))` for a copy-map
entry `e = (src_dir, dst_dir)`, with `fs` giving the files of each
absolute source directory. -/
def stageStep (fs : String → List (String × String)) (t : DestTree)
    (e : String × String) : DestTree :=
  fun rel => if rel = e.2 then copy_tree (fs e.1) (t e.2) else t rel

/-- The copy loop of `DirectoryGenerator.invoke` over a whole copy map. -/
def stageCopyMap (fs : String → List (String × String))
    (m : List (String × String)) (t : DestTree) : DestTree :=
  m.foldl (stageStep fs) t

/-- Result of a successful `DirectoryGenerator.invoke`. -/
structure InvokeResult where
  depTree : DestTree
  importsCommand : List String
  execDest : String

/-- `DirectoryGenerator.invoke` (lines 120-129).  Its first loop iterates
`self._dep_lib_dirs.items()` with a body that evaluates the undefined name
`dst_lib_dir`, so any iteration raises `NameError`; when that dict is
empty the loop body never runs and staging proceeds: the second loop
copies every `_dep_bin_dirs` entry, then `conan imports` is invoked and
the executable is copied to `os.path.join(destination, self._executable)`
and chmod-ed (`_chmod_plus_x`, modelled separately). -/
def DirectoryGenerator.invoke (fs : String → List (String × String))
    (tmpdir : String) (st : GenState) (destination : String) :
    Except String InvokeResult :=
  match st.dep_lib_dirs with
  | _ :: _ => .error "NameError: name dst_lib_dir is not defined"
  | [] =>
    .ok { depTree := stageCopyMap fs st.dep_bin_dirs emptyDest,
          importsCommand := ["conan", "imports", "-if", tmpdir, "-imf", destination, "."],
          execDest := joinPath destination st.executable }

/-- `Generator._chmod_plus_x` (lines 74-76) acting on a file mode:
on POSIX, or the mode's bits with `0o111`; elsewhere, do nothing. -/
def Generator._chmod_plus_x (posix : Bool) (mode : Nat) : Nat :=
  if posix then mode ||| 0o111 else mode

example : Generator._chmod_plus_x true 0o644 = 0o755 := by decide
example : Generator._chmod_plus_x false 0o644 = 0o644 := by decide

/-- The `_format_dirs` closure of `Generator._create_entry_point`
(lines 87-88): `":".join(["%s/%s" % (varname, d) for d in dirs])`. -/
def formatDirs (varname : String) (dirs : List String) : String :=
  String.intercalate ":" (dirs.map (fun d => varname ++ "/" ++ d))

/-- The launcher-script content built by `Generator._create_entry_point`
(lines 82-103) from the generator state and the base variable. -/
def Generator._create_entry_point (st : GenState) (varname : String) : String :=
  let path := formatDirs varname st.bin_dirs
  let ld_library_path := formatDirs varname st.lib_dirs
  let exe := varname ++ "/" ++ st.executable
  "#!/usr/bin/env bash\n" ++
  "set -ex\n" ++
  "export PATH=$PATH:" ++ path ++ "\n" ++
  "export LD_LIBRARY_PATH=$LD_LIBRARY_PATH:" ++ ld_library_path ++ "\n" ++
  "pushd $(dirname " ++ exe ++ ")\n" ++
  "$(basename " ++ exe ++ ")\n" ++
  "popd\n"

/-- Split a character list on a separator character. -/
def splitOnChar : List Char → Char → List (List Char)
  | [], _ => [[]]
  | c :: cs, sep =>
    let r := splitOnChar cs sep
    if c = sep then [] :: r else (c :: r.headD []) :: r.tail

/-- Split a string into fields at a separator character. -/
def strFields (s : String) (sep : Char) : List String :=
  (splitOnChar s.data sep).map (fun l => String.mk l)

/-- The lines of a string (final newline yields a trailing empty field). -/
def strLines (s : String) : List String :=
  strFields s '\n'

/-- The POSIX `dirname` utility on a path containing a slash:
everything before the last slash.  Used only to interpret the
`$(dirname ...)` substitution of the generated script. -/
def shDirname (p : String) : String :=
  String.intercalate "/" (strFields p '/').dropLast

/-- The POSIX `basename` utility: everything after the last slash. -/
def shBasename (p : String) : String :=
  (strFields p '/').getLastD p

example : strLines "a\nb\n" = ["a", "b", ""] := by decide
example : shDirname "$APPDIR/bin/myapp" = "$APPDIR/bin" := by decide
example : shBasename "$APPDIR/bin/myapp" = "myapp" := by decide
example : joinPath "out" "bin/myapp" = "out/bin/myapp" := by decide

/-- Outcome of the external commands a run may spawn: the exit code of
each command line, plus whether the Flatpak remote named in a
`remote-add` command already exists (the reason a `remote-add` can
fail that the specification singles out). -/
structure ToolWorld where
  exitCode : List String → Nat
  remoteAlreadyExists : Bool

/-- `Generator._run` (lines 78-80): `subprocess.check_call` raises
`CalledProcessError` on a non-zero exit status. -/
def Generator._run (w : ToolWorld) (cmd : List String) : Except (List String × Nat) Unit :=
  if w.exitCode cmd = 0 then .ok () else .error (cmd, w.exitCode cmd)

/-- The `flatpak remote-add` command line of `FlatPakGenerator.run`
(line 243). -/
def remoteAddCommand : List String :=
  ["flatpak", "--user", "remote-add", "--no-gpg-verify", "conan-repo", "repo"]

/-- Lines 242-245 of `FlatPakGenerator.run`: the `remote-add` call wrapped
in `try: ... except subprocess.CalledProcessError: pass`. -/
def flatpakRemoteAddStep (w : ToolWorld) : Except (List String × Nat) Unit :=
  match Generator._run w remoteAddCommand with
  | .ok _ => pure ()
  | .error _ => pure ()

/-- The packaging subprocess sequence at the end of `FlatPakGenerator.run`
(lines 239-246): two `flatpak-builder` calls, then `remote-add` wrapped in
`try`/`except pass`, then `install`. -/
def flatpakPackagingSteps (w : ToolWorld) (build_folder manifest_file app_id : String) :
    Except (List String × Nat) Unit := do
  Generator._run w ["flatpak-builder", build_folder, manifest_file]
  Generator._run w ["flatpak-builder", "--repo=repo", "--force-clean", build_folder, manifest_file]
  flatpakRemoteAddStep w
  Generator._run w ["flatpak", "--user", "install", "-y", "--reinstall", "conan-repo", app_id]

/-- State of the `conanbuildinfo.json` manifest cache across a process
run: whether the file exists in the temporary directory, and how many
times `conan install` (the resolver) has been invoked so far. -/
structure CacheState where
  cacheExists : Bool
  resolverRuns : Nat
deriving DecidableEq

/-- Lines 36-38 of `Generator.init`: invoke the resolver only when the
cache file is absent; the `-if tempfile.gettempdir()` invocation writes
the cache. -/
def initResolveStep (s : CacheState) : CacheState :=
  if s.cacheExists then s
  else { cacheExists := true, resolverRuns := s.resolverRuns + 1 }

/-- The cache behaviour of one `main` run (lines 266-281): `main` first
unlinks `conanbuildinfo.json` when it exists (lines 266-268), then calls
`init` once per requested generator. -/
def mainCacheRun (gens : List String) (s : CacheState) : CacheState :=
  gens.foldl (fun t _ => initResolveStep t)
    { s with cacheExists := false }

/-- Observable effects of `main` (lines 260-281) relevant to control
flow. -/
inductive MainEffect where
  | unlinkCache
  | printMessage (msg : String)
  | exitWith (code : Nat)
  | readConfig (path : String)
  | initGenerator (g : String)
  | runGenerator (g : String)
deriving DecidableEq

/-- The effect sequence of `main` (lines 266-281) after argument parsing:
unlink the cache file when present; if the config file is missing, print
a message and exit with code 1 before touching any generator; otherwise
read the config and, for each requested generator, `init` then `run` it. -/
def mainEffects (cacheExists configExists : Bool) (configPath : String)
    (gens : List String) : List MainEffect :=
  (if cacheExists then [.unlinkCache] else []) ++
  (if configExists then
    .readConfig configPath ::
      gens.foldr (fun g acc => .initGenerator g :: .runGenerator g :: acc) []
  else
    [.printMessage ("couldn\x27t open config file " ++ configPath), .exitWith 1])

/-- Actions performed by `AppImageGenerator.run` (lines 162-185), in
program order. -/
inductive AIAction where
  | stageDeps (destination : String)
  | downloadFile (url name : String)
  | chmodPlusX (path : String)
  | createEntryPoint (path varname : String)
  | copyFile (src dst : String)
  | saveFile (path : String)
  | runCommand (cmd : List String)
deriving DecidableEq

/-- The action trace of `AppImageGenerator.run` (lines 162-185) with
AppImageKit version 12 (set in `__init__`, line 159).  `invoke` is the
inherited `DirectoryGenerator.invoke`, staging into `temp_folder`
itself; `_download` caches under the OS temporary directory `osTmp`. -/
def AppImageGenerator.run (osTmp : String) (name temp_folder : String) : List AIAction :=
  let base_url := "https://github.com/AppImage/AppImageKit/releases/download/12/"
  let apprun := joinPath osTmp "AppRun-x86_64"
  let appimagetool := joinPath osTmp "appimagetool-x86_64.AppImage"
  [ .stageDeps temp_folder,
    .downloadFile (base_url ++ "AppRun-x86_64") "AppRun-x86_64",
    .downloadFile (base_url ++ "appimagetool-x86_64.AppImage") "appimagetool-x86_64.AppImage",
    .chmodPlusX appimagetool,
    .createEntryPoint (joinPath (joinPath (joinPath temp_folder "usr") "bin") name) "$APPDIR",
    .copyFile apprun (joinPath temp_folder "AppRun"),
    .chmodPlusX (joinPath temp_folder "AppRun"),
    .saveFile (joinPath temp_folder (name ++ ".desktop")),
    .saveFile (joinPath temp_folder (name ++ ".png")),
    .runCommand [appimagetool, temp_folder] ]

/-! Helper lemmas about the `Except` monad and monadic folds. -/

theorem except_ok_bind {ε α β : Type} (a : α) (f : α → Except ε β) :
    (Except.ok a >>= f) = f a := rfl

theorem except_error_bind {ε α β : Type} (e : ε) (f : α → Except ε β) :
    ((Except.error e : Except ε α) >>= f) = .error e := rfl

theorem except_bind_congr {ε α β : Type} (x : Except ε α) (f g : α → Except ε β)
    (h : ∀ a, f a = g a) : (x >>= f) = (x >>= g) := by
  cases x with
  | error e => rfl
  | ok a => rw [except_ok_bind, except_ok_bind, h a]

theorem foldlM_except_ok_preserve {α β : Type} (P : β → Prop)
    (f : β → α → Except String β)
    (hf : ∀ s a t, f s a = .ok t → P s → P t) :
    ∀ (l : List α) (s t : β), l.foldlM f s = .ok t → P s → P t := by
  intro l
  induction l with
  | nil =>
    intro s t h hs
    simp only [List.foldlM_nil] at h
    cases h
    exact hs
  | cons a l ih =>
    intro s t h hs
    rw [List.foldlM_cons] at h
    cases hfa : f s a with
    | error e =>
      rw [hfa, except_error_bind] at h
      exact Except.noConfusion h
    | ok s2 =>
      rw [hfa, except_ok_bind] at h
      exact ih s2 t h (hf s a s2 hfa hs)

theorem foldlM_except_append {α β : Type} (f : β → α → Except String β) :
    ∀ (l1 l2 : List α) (s : β),
      (l1 ++ l2).foldlM f s = l1.foldlM f s >>= fun t => l2.foldlM f t := by
  intro l1
  induction l1 with
  | nil =>
    intro l2 s
    simp only [List.nil_append, List.foldlM_nil]
    rfl
  | cons a l ih =>
    intro l2 s
    rw [List.cons_append, List.foldlM_cons, List.foldlM_cons]
    cases hfa : f s a with
    | error e => rfl
    | ok s2 => exact ih l2 s2

/-! Helper lemmas about `copy_tree`. -/

theorem copy_tree_cons (f : String × String) (tl : List (String × String))
    (d : DirContents) :
    copy_tree (f :: tl) d = copy_tree tl (fun n => if n = f.1 then some f.2 else d n) := rfl

theorem copy_tree_isSome (n : String) :
    ∀ (src : List (String × String)) (d : DirContents),
      ((copy_tree src d n).isSome = true ↔ (∃ c, (n, c) ∈ src) ∨ (d n).isSome = true) := by
  intro src
  induction src with
  | nil => intro d; simp [copy_tree]
  | cons f tl ih =>
    rcases f with ⟨k, v⟩
    intro d
    rw [copy_tree_cons, ih]
    simp only [List.mem_cons, Prod.mk.injEq]
    by_cases hn : n = k
    · subst hn
      simp
    · simp [hn]

theorem copy_tree_not_mem (n : String) :
    ∀ (src : List (String × String)) (d : DirContents),
      (∀ c, (n, c) ∉ src) → copy_tree src d n = d n := by
  intro src
  induction src with
  | nil => intro d _; rfl
  | cons f tl ih =>
    rcases f with ⟨k, v⟩
    intro d h
    rw [copy_tree_cons, ih _ (fun c hc => h c (List.mem_cons_of_mem _ hc))]
    have hn : n ≠ k := fun e => h v (by rw [e]; exact List.mem_cons_self _ _)
    simp [hn]

/-! Helper lemmas about `Generator.init` and its loop bodies. -/

theorem list_isEmpty_false {α : Type} (l : List α) (h : l ≠ []) : l.isEmpty = false := by
  cases l with
  | nil => exact absurd rfl h
  | cons a as => rfl

theorem processLibPath_nonempty (rp : String → String → String)
    (ld : String → Option (List String)) (root : String) (st : GenState)
    (p : String) (l : List String) (h1 : ld p = some l) (h2 : l ≠ []) :
    processLibPath rp ld root st p =
      .ok { st with lib_dirs := setAdd st.lib_dirs (rp p root),
                    dep_bin_dirs := dictInsert st.dep_bin_dirs p (rp p root) } := by
  cases l with
  | nil => exact absurd rfl h2
  | cons a as =>
    unfold processLibPath
    rw [h1]
    rfl

theorem processBinPath_nonempty (rp : String → String → String)
    (ld : String → Option (List String)) (root : String) (st : GenState)
    (p : String) (l : List String) (h1 : ld p = some l) (h2 : l ≠ []) :
    processBinPath rp ld root st p =
      .ok { st with bin_dirs := setAdd st.bin_dirs (rp p root),
                    dep_bin_dirs := dictInsert st.dep_bin_dirs p (rp p root) } := by
  cases l with
  | nil => exact absurd rfl h2
  | cons a as =>
    unfold processBinPath
    rw [h1]
    rfl

theorem processLibPath_empty (rp : String → String → String)
    (ld : String → Option (List String)) (root : String) (st : GenState)
    (p : String) (h1 : ld p = some []) :
    processLibPath rp ld root st p = .ok st := by
  unfold processLibPath
  rw [h1]
  rfl

theorem processBinPath_empty (rp : String → String → String)
    (ld : String → Option (List String)) (root : String) (st : GenState)
    (p : String) (h1 : ld p = some []) :
    processBinPath rp ld root st p = .ok st := by
  unfold processBinPath
  rw [h1]
  rfl

theorem processLibPath_dep_lib_dirs (rp : String → String → String)
    (ld : String → Option (List String)) (root : String) (st st2 : GenState)
    (p : String) (h : processLibPath rp ld root st p = .ok st2) :
    st2.dep_lib_dirs = st.dep_lib_dirs := by
  unfold processLibPath at h
  cases hld : ld p with
  | none =>
    rw [hld] at h
    exact Except.noConfusion h
  | some entries =>
    rw [hld] at h
    cases entries with
    | nil =>
      have h2 : Except.ok st = Except.ok st2 := h
      cases h2
      rfl
    | cons a as =>
      have h2 : Except.ok { st with lib_dirs := setAdd st.lib_dirs (rp p root), dep_bin_dirs := dictInsert st.dep_bin_dirs p (rp p root) } = Except.ok st2 := h
      cases h2
      rfl

theorem processBinPath_dep_lib_dirs (rp : String → String → String)
    (ld : String → Option (List String)) (root : String) (st st2 : GenState)
    (p : String) (h : processBinPath rp ld root st p = .ok st2) :
    st2.dep_lib_dirs = st.dep_lib_dirs := by
  unfold processBinPath at h
  cases hld : ld p with
  | none =>
    rw [hld] at h
    exact Except.noConfusion h
  | some entries =>
    rw [hld] at h
    cases entries with
    | nil =>
      have h2 : Except.ok st = Except.ok st2 := h
      cases h2
      rfl
    | cons a as =>
      have h2 : Except.ok { st with bin_dirs := setAdd st.bin_dirs (rp p root), dep_bin_dirs := dictInsert st.dep_bin_dirs p (rp p root) } = Except.ok st2 := h
      cases h2
      rfl

theorem initDep_dep_lib_dirs (rp : String → String → String)
    (ld : String → Option (List String)) (st st2 : GenState) (dep : Dependency)
    (h : initDep rp ld st dep = .ok st2) : st2.dep_lib_dirs = st.dep_lib_dirs := by
  unfold initDep at h
  cases h1 : dep.lib_paths.foldlM (processLibPath rp ld dep.rootpath) st with
  | error e =>
    rw [h1, except_error_bind] at h
    exact Except.noConfusion h
  | ok stm =>
    rw [h1, except_ok_bind] at h
    have e1 : stm.dep_lib_dirs = st.dep_lib_dirs :=
      foldlM_except_ok_preserve (fun s => s.dep_lib_dirs = st.dep_lib_dirs) _
        (fun s a t ha hs => (processLibPath_dep_lib_dirs rp ld dep.rootpath s t a ha).trans hs)
        dep.lib_paths st stm h1 rfl
    have e2 : st2.dep_lib_dirs = stm.dep_lib_dirs :=
      foldlM_except_ok_preserve (fun s => s.dep_lib_dirs = stm.dep_lib_dirs) _
        (fun s a t ha hs => (processBinPath_dep_lib_dirs rp ld dep.rootpath s t a ha).trans hs)
        dep.bin_paths stm st2 h rfl
    exact e2.trans e1

theorem Generator_init_dep_lib_dirs_nil (rp : String → String → String)
    (ld : String → Option (List String)) (config : Config) (m : Manifest)
    (st : GenState) (h : Generator.init rp ld config m = .ok st) :
    st.dep_lib_dirs = [] := by
  exact foldlM_except_ok_preserve (fun s => s.dep_lib_dirs = []) _
    (fun s a t ha hs => (initDep_dep_lib_dirs rp ld s t a ha).trans hs)
    m.dependencies _ st h rfl

/-! Claim theorems. -/

/-- C1 (evaluation at the failing input): for a dependency with rootpath
`/r` and a single non-empty library path `/r/lib`, `Generator.init`
records the library entry in `_dep_bin_dirs` and leaves `_dep_lib_dirs`
empty — line 56 of the source writes `self._dep_bin_dirs[lib_path]`
instead of `self._dep_lib_dirs[lib_path]`, so no entry ever reaches the
library copy map, contrary to the claim that each entry lands in the map
of its own kind. -/
theorem init_stores_lib_entry_in_bin_map :
    Generator.init (fun _ _ => "lib") (fun _ => some ["libf.so"]) ⟨"app", "bin/app"⟩
        ⟨[⟨"/r", ["/r/lib"], []⟩]⟩ =
      .ok ⟨"app", "bin/app", [], ["lib"], [], [("/r/lib", "lib")]⟩ := rfl

/-- C3 counterexample: for a dependency whose `lib_paths` contain a
missing directory, `Generator.init` does not skip it silently —
`os.listdir` raises `FileNotFoundError`, which propagates. -/
theorem init_missing_directory_raises :
    Generator.init (fun _ _ => "lib") (fun _ => none) ⟨"app", "bin/app"⟩
        ⟨[⟨"/r", ["/r/gone"], []⟩]⟩ = .error ("FileNotFoundError: /r/gone") := rfl

/-- C3 (amended): an entry of `lib_paths` or `bin_paths` whose directory
exists but is empty is silently skipped by `Generator.init`: removing it
from the dependency leaves the result unchanged, on every manifest
containing such a dependency anywhere. -/
theorem init_skips_empty_directories (rp : String → String → String)
    (ld : String → Option (List String)) (config : Config)
    (deps1 deps2 : List Dependency) (root : String)
    (lps1 lps2 bps1 bps2 : List String) (p q : String)
    (hp : ld p = some []) (hq : ld q = some []) :
    Generator.init rp ld config
        ⟨deps1 ++ ⟨root, lps1 ++ p :: lps2, bps1 ++ q :: bps2⟩ :: deps2⟩ =
      Generator.init rp ld config
        ⟨deps1 ++ ⟨root, lps1 ++ lps2, bps1 ++ bps2⟩ :: deps2⟩ := by
  unfold Generator.init
  show (deps1 ++ ⟨root, lps1 ++ p :: lps2, bps1 ++ q :: bps2⟩ :: deps2).foldlM (initDep rp ld) _ =
    (deps1 ++ ⟨root, lps1 ++ lps2, bps1 ++ bps2⟩ :: deps2).foldlM (initDep rp ld) _
  rw [foldlM_except_append, foldlM_except_append]
  apply except_bind_congr
  intro s
  rw [List.foldlM_cons, List.foldlM_cons]
  have hd : initDep rp ld s ⟨root, lps1 ++ p :: lps2, bps1 ++ q :: bps2⟩ =
      initDep rp ld s ⟨root, lps1 ++ lps2, bps1 ++ bps2⟩ := by
    unfold initDep
    have hlib : ∀ t : GenState, (lps1 ++ p :: lps2).foldlM (processLibPath rp ld root) t =
        (lps1 ++ lps2).foldlM (processLibPath rp ld root) t := by
      intro t
      rw [foldlM_except_append, foldlM_except_append]
      apply except_bind_congr
      intro u
      rw [List.foldlM_cons, processLibPath_empty rp ld root u p hp, except_ok_bind]
    have hbin : ∀ t : GenState, (bps1 ++ q :: bps2).foldlM (processBinPath rp ld root) t =
        (bps1 ++ bps2).foldlM (processBinPath rp ld root) t := by
      intro t
      rw [foldlM_except_append, foldlM_except_append]
      apply except_bind_congr
      intro u
      rw [List.foldlM_cons, processBinPath_empty rp ld root u q hq, except_ok_bind]
    rw [hlib s]
    apply except_bind_congr
    intro t
    rw [hbin t]
  rw [hd]

/-- Witness for `init_skips_empty_directories` at a concrete input. -/
theorem init_skips_empty_directories_witness :
    Generator.init (fun _ _ => "lib") (fun _ => some []) ⟨"app", "bin/app"⟩
        ⟨[⟨"/r", ["/r/el"], ["/r/eb"]⟩]⟩ =
      Generator.init (fun _ _ => "lib") (fun _ => some []) ⟨"app", "bin/app"⟩
        ⟨[⟨"/r", [], []⟩]⟩ :=
  init_skips_empty_directories (fun _ _ => "lib") (fun _ => some []) ⟨"app", "bin/app"⟩
    [] [] "/r" [] [] [] [] "/r/el" "/r/eb" rfl rfl

/-- C4: after any successful `Generator.init`, the library copy map
`_dep_lib_dirs` is empty (every recorded entry went to `_dep_bin_dirs`),
so the library-copy loop of `DirectoryGenerator.invoke` — whose body
references the undefined name `dst_lib_dir` — executes no iteration and
`invoke` succeeds: the undefined-variable fault is unreachable. -/
theorem init_leaves_library_copy_map_empty (rp : String → String → String)
    (ld : String → Option (List String)) (config : Config) (m : Manifest)
    (st : GenState) (h : Generator.init rp ld config m = .ok st) :
    st.dep_lib_dirs = [] ∧
      ∀ (fs : String → List (String × String)) (tmpdir destination : String),
        ∃ r, DirectoryGenerator.invoke fs tmpdir st destination = Except.ok r := by
  have hnil : st.dep_lib_dirs = [] := Generator_init_dep_lib_dirs_nil rp ld config m st h
  rcases st with ⟨n1, e1, b1, l1, dl1, db1⟩
  have hnil2 : dl1 = [] := hnil
  subst hnil2
  exact ⟨rfl, fun fs tmpdir destination => ⟨_, rfl⟩⟩

/-- Witness for `init_leaves_library_copy_map_empty` at a concrete
manifest. -/
theorem init_leaves_library_copy_map_empty_witness :
    (⟨"app", "bin/app", [], ["lib"], [], [("/r/lib", "lib")]⟩ : GenState).dep_lib_dirs = [] ∧
      ∀ (fs : String → List (String × String)) (tmpdir destination : String),
        ∃ r, DirectoryGenerator.invoke fs tmpdir
            ⟨"app", "bin/app", [], ["lib"], [], [("/r/lib", "lib")]⟩ destination = Except.ok r :=
  init_leaves_library_copy_map_empty (fun _ _ => "lib") (fun _ => some ["libf.so"])
    ⟨"app", "bin/app"⟩ ⟨[⟨"/r", ["/r/lib"], []⟩]⟩ _ rfl

/-- C5: for `lib_dirs = ["lib"]`, `bin_dirs = ["bin"]`, base variable
`$APPDIR` and executable `bin/myapp`, the generated launcher contains the
line `export PATH=$PATH:$APPDIR/bin`, the line
`export LD_LIBRARY_PATH=$LD_LIBRARY_PATH:$APPDIR/lib`, and ends by
changing into the executable's directory (`$(dirname $APPDIR/bin/myapp)`,
which is `$APPDIR/bin`), running it by basename (`myapp`), and returning
via `popd`. -/
theorem entry_point_content_for_appdir :
    strLines (Generator._create_entry_point ⟨"myapp", "bin/myapp", ["bin"], ["lib"], [], []⟩ "$APPDIR") =
        ["#!/usr/bin/env bash", "set -ex", "export PATH=$PATH:$APPDIR/bin",
         "export LD_LIBRARY_PATH=$LD_LIBRARY_PATH:$APPDIR/lib",
         "pushd $(dirname $APPDIR/bin/myapp)", "$(basename $APPDIR/bin/myapp)", "popd", ""] ∧
      shDirname "$APPDIR/bin/myapp" = "$APPDIR/bin" ∧
      shBasename "$APPDIR/bin/myapp" = "myapp" := by
  exact ⟨rfl, rfl, rfl⟩

theorem cacheRun_fold_exists (gens : List String) (n : Nat) :
    gens.foldl (fun t _ => initResolveStep t) ⟨true, n⟩ = ⟨true, n⟩ := by
  induction gens with
  | nil => rfl
  | cons g gs ih => exact ih

/-- C7 (amended): within one process run the resolver is invoked exactly
once when at least one generator is requested — the first `init` creates
the cache and every later `init` in the same run reads it.  But `main`
unlinks the cache file at startup, so whatever the incoming cache state,
a run never reuses a previous run's cache: each non-empty run re-invokes
the resolver exactly once. -/
theorem resolver_invoked_once_per_run (s : CacheState) (g : String) (gs : List String) :
    mainCacheRun (g :: gs) s = ⟨true, s.resolverRuns + 1⟩ ∧
      mainCacheRun [] s = ⟨false, s.resolverRuns⟩ := by
  constructor
  · unfold mainCacheRun
    rw [List.foldl_cons]
    exact cacheRun_fold_exists gs (s.resolverRuns + 1)
  · rfl

/-- Witness for `resolver_invoked_once_per_run` at a concrete state. -/
theorem resolver_invoked_once_per_run_witness :
    mainCacheRun ["dir", "zip"] ⟨true, 5⟩ = ⟨true, 6⟩ ∧
      mainCacheRun [] ⟨true, 5⟩ = ⟨false, 5⟩ :=
  resolver_invoked_once_per_run ⟨true, 5⟩ "dir" ["zip"]

/-- C7 counterexample: the manifest cache is NOT reused across separate
runs — after a first run leaves the cache file in place, a second run
still re-invokes the resolver (two invocations in total), because `main`
deletes the cache file before running any generator. -/
theorem resolver_reinvoked_across_runs :
    (mainCacheRun ["dir"] ⟨false, 0⟩).cacheExists = true ∧
      (mainCacheRun ["dir"] (mainCacheRun ["dir"] ⟨false, 0⟩)).resolverRuns = 2 :=
  ⟨rfl, rfl⟩

/-- C8: when the configuration file does not exist, `main` prints a
message and exits with code 1, and no generator is initialised or run. -/
theorem missing_config_exits_one_without_artifact (cacheExists : Bool)
    (configPath : String) (gens : List String) :
    MainEffect.exitWith 1 ∈ mainEffects cacheExists false configPath gens ∧
      MainEffect.printMessage ("couldn\x27t open config file " ++ configPath) ∈
        mainEffects cacheExists false configPath gens ∧
      (∀ g, MainEffect.initGenerator g ∉ mainEffects cacheExists false configPath gens) ∧
      (∀ g, MainEffect.runGenerator g ∉ mainEffects cacheExists false configPath gens) := by
  cases cacheExists <;> simp [mainEffects]

/-- Witness for `missing_config_exits_one_without_artifact` at the
default configuration path. -/
theorem missing_config_exits_one_without_artifact_witness :
    MainEffect.exitWith 1 ∈ mainEffects true false "conan-deploy.conf" ["dir"] ∧
      MainEffect.printMessage ("couldn\x27t open config file " ++ "conan-deploy.conf") ∈
        mainEffects true false "conan-deploy.conf" ["dir"] ∧
      MainEffect.initGenerator "dir" ∉ mainEffects true false "conan-deploy.conf" ["dir"] ∧
      MainEffect.runGenerator "dir" ∉ mainEffects true false "conan-deploy.conf" ["dir"] := by
  have h := missing_config_exits_one_without_artifact true "conan-deploy.conf" ["dir"]
  exact ⟨h.1, h.2.1, h.2.2.1 "dir", h.2.2.2 "dir"⟩

theorem Generator_run_congr (w w2 : ToolWorld) (cmd : List String)
    (h : w2.exitCode cmd = w.exitCode cmd) :
    Generator._run w2 cmd = Generator._run w cmd := by
  unfold Generator._run
  rw [h]

theorem flatpakRemoteAddStep_eq (w : ToolWorld) : flatpakRemoteAddStep w = pure () := by
  unfold flatpakRemoteAddStep
  cases Generator._run w remoteAddCommand <;> rfl

/-- C9 counterexample: a `remote-add` failure whose reason is NOT that
the remote already exists (the world reports `remoteAlreadyExists =
false`, exit code 1) is still swallowed: the Flatpak packaging sequence
completes successfully instead of aborting. -/
theorem flatpak_remote_add_failure_swallowed :
    flatpakPackagingSteps ⟨fun cmd => if cmd = remoteAddCommand then 1 else 0, false⟩
        "bld" "mf.json" "org.flatpak.app" = Except.ok () ∧
      (⟨fun cmd => if cmd = remoteAddCommand then 1 else 0, false⟩ : ToolWorld).remoteAlreadyExists
        = false ∧
      (⟨fun cmd => if cmd = remoteAddCommand then 1 else 0, false⟩ : ToolWorld).exitCode
        remoteAddCommand = 1 :=
  ⟨rfl, rfl, rfl⟩

/-- C9 (amended): a non-zero exit status of any packaging subprocess is
fatal (`_run` raises), with the single exception of the Flatpak
remote-add step, whose failure is ignored REGARDLESS of its reason: the
sequence's result does not depend on the remote-add exit code at all,
while a failing first `flatpak-builder` call aborts the sequence. -/
theorem packaging_failures_fatal_except_remote_add (w : ToolWorld) (b mf a : String) :
    (∀ cmd, w.exitCode cmd ≠ 0 → Generator._run w cmd = .error (cmd, w.exitCode cmd)) ∧
      (∀ w2 : ToolWorld, (∀ cmd, cmd ≠ remoteAddCommand → w2.exitCode cmd = w.exitCode cmd) →
        flatpakPackagingSteps w2 b mf a = flatpakPackagingSteps w b mf a) ∧
      (w.exitCode ["flatpak-builder", b, mf] ≠ 0 →
        flatpakPackagingSteps w b mf a =
          .error (["flatpak-builder", b, mf], w.exitCode ["flatpak-builder", b, mf])) := by
  refine ⟨?_, ?_, ?_⟩
  · intro cmd hc
    unfold Generator._run
    rw [if_neg hc]
  · intro w2 h2
    have hne1 : (["flatpak-builder", b, mf] : List String) ≠ remoteAddCommand := by
      intro hx
      simp only [remoteAddCommand] at hx
      injection hx with h1 hrest
      exact absurd h1 (by decide)
    have hne2 : (["flatpak-builder", "--repo=repo", "--force-clean", b, mf] : List String) ≠
        remoteAddCommand := by
      intro hx
      simp only [remoteAddCommand] at hx
      injection hx with h1 hrest
      exact absurd h1 (by decide)
    have hne4 : (["flatpak", "--user", "install", "-y", "--reinstall", "conan-repo", a] :
        List String) ≠ remoteAddCommand := by
      intro hx
      simp only [remoteAddCommand] at hx
      injection hx with h1 hx2
      injection hx2 with h2 hx3
      injection hx3 with h3 hrest
      exact absurd h3 (by decide)
    have e1 := Generator_run_congr w w2 _ (h2 _ hne1)
    have e2 := Generator_run_congr w w2 _ (h2 _ hne2)
    have e4 := Generator_run_congr w w2 _ (h2 _ hne4)
    simp only [flatpakPackagingSteps, flatpakRemoteAddStep_eq, e1, e2, e4]
  · intro hb
    unfold flatpakPackagingSteps
    have hrun : Generator._run w ["flatpak-builder", b, mf] =
        .error (["flatpak-builder", b, mf], w.exitCode ["flatpak-builder", b, mf]) := by
      unfold Generator._run
      rw [if_neg hb]
    rw [hrun, except_error_bind]

/-- Witness for `packaging_failures_fatal_except_remote_add` at concrete
worlds. -/
theorem packaging_failures_fatal_except_remote_add_witness :
    Generator._run ⟨fun _ => 1, false⟩ ["flatpak-builder", "bld", "mf"] =
        .error (["flatpak-builder", "bld", "mf"], 1) ∧
      flatpakPackagingSteps ⟨fun cmd => if cmd = remoteAddCommand then 7 else 0, false⟩
          "bld" "mf" "app" =
        flatpakPackagingSteps ⟨fun _ => 0, false⟩ "bld" "mf" "app" := by
  refine ⟨?_, ?_⟩
  · exact (packaging_failures_fatal_except_remote_add ⟨fun _ => 1, false⟩ "bld" "mf" "app").1
      ["flatpak-builder", "bld", "mf"] (by decide)
  · exact (packaging_failures_fatal_except_remote_add ⟨fun _ => 0, false⟩ "bld" "mf" "app").2.1
      ⟨fun cmd => if cmd = remoteAddCommand then 7 else 0, false⟩
      (fun cmd hc => by
        show (if cmd = remoteAddCommand then 7 else 0) = 0
        rw [if_neg hc])

/-- C10 counterexample: the AppImage backend stages the dependency files
into the temporary directory itself, not under `usr/bin`: the only
staging action in its trace targets `/T`, which differs from
`/T/usr/bin`. -/
theorem appimage_stages_at_temp_root :
    ((AppImageGenerator.run "/tmp" "app" "/T").filter
        (fun a => match a with | AIAction.stageDeps _ => true | _ => false)) =
      [AIAction.stageDeps "/T"] ∧
      "/T" ≠ joinPath (joinPath "/T" "usr") "bin" :=
  ⟨rfl, by decide⟩

/-- C10 (amended): the AppImage backend first stages the dependency
files into the temporary directory itself (its root, not `usr/bin`),
generates the launcher at `usr/bin/<name>` inside it with base variable
`$APPDIR` before the end of the trace, and invokes the AppImage
packaging tool on the temporary directory as its final action. -/
theorem appimage_run_stages_then_launcher_then_tool (osTmp name temp : String) :
    (AppImageGenerator.run osTmp name temp).head? = some (AIAction.stageDeps temp) ∧
      AIAction.createEntryPoint (joinPath (joinPath (joinPath temp "usr") "bin") name) "$APPDIR"
        ∈ (AppImageGenerator.run osTmp name temp).dropLast ∧
      (AppImageGenerator.run osTmp name temp).getLast? =
        some (AIAction.runCommand [joinPath osTmp "appimagetool-x86_64.AppImage", temp]) := by
  refine ⟨rfl, ?_, rfl⟩
  simp [AppImageGenerator.run, List.dropLast]

/-- Witness for `appimage_run_stages_then_launcher_then_tool` at concrete
paths. -/
theorem appimage_run_stages_then_launcher_then_tool_witness :
    (AppImageGenerator.run "/tmp" "app" "/T").head? = some (AIAction.stageDeps "/T") ∧
      AIAction.createEntryPoint (joinPath (joinPath (joinPath "/T" "usr") "bin") "app") "$APPDIR"
        ∈ (AppImageGenerator.run "/tmp" "app" "/T").dropLast ∧
      (AppImageGenerator.run "/tmp" "app" "/T").getLast? =
        some (AIAction.runCommand [joinPath "/tmp" "appimagetool-x86_64.AppImage", "/T"]) :=
  appimage_run_stages_then_launcher_then_tool "/tmp" "app" "/T"

theorem testBit_73_eq_false : ∀ (i : Nat), i ≠ 0 → i ≠ 3 → i ≠ 6 → Nat.testBit 73 i = false
  | 0, h0, _, _ => absurd rfl h0
  | 1, _, _, _ => by decide
  | 2, _, _, _ => by decide
  | 3, _, h3, _ => absurd rfl h3
  | 4, _, _, _ => by decide
  | 5, _, _, _ => by decide
  | 6, _, _, h6 => absurd rfl h6
  | (j + 7), _, _, _ =>
    Nat.testBit_eq_false_of_lt
      (lt_of_lt_of_le (show (73 : Nat) < 2 ^ 7 by decide)
        (Nat.pow_le_pow_right (show 0 < 2 by decide) (show 7 ≤ j + 7 by omega)))

/-- C6 counterexample: the executable is NOT copied into the destination
root: with executable `bin/myapp` and destination `out`, staging places
it at `out/bin/myapp`, not at `out/myapp` (basename in the root). -/
theorem invoke_executable_not_in_destination_root :
    ∃ r, DirectoryGenerator.invoke (fun _ => []) "/tmp"
        ⟨"myapp", "bin/myapp", ["bin"], ["lib"], [], []⟩ "out" = Except.ok r ∧
      r.execDest = "out/bin/myapp" ∧
      r.execDest ≠ joinPath "out" (shBasename "bin/myapp") := by
  refine ⟨_, rfl, rfl, ?_⟩
  decide

/-- C6 (amended): a successful staging run copies the project's
executable to `os.path.join(destination, executable)` — preserving the
executable's relative path under the destination rather than dropping it
in the root — and `_chmod_plus_x` adds exactly the three execute
permission bits (user/group/other) on POSIX platforms, leaving every
other bit and the non-POSIX case untouched. -/
theorem invoke_executable_destination_and_chmod
    (fs : String → List (String × String)) (tmpdir : String) (st : GenState)
    (dest : String) (r : InvokeResult)
    (h : DirectoryGenerator.invoke fs tmpdir st dest = .ok r) :
    r.execDest = joinPath dest st.executable ∧
      (∀ mode : Nat,
        Generator._chmod_plus_x true mode = mode ||| 0o111 ∧
        (Generator._chmod_plus_x true mode).testBit 0 = true ∧
        (Generator._chmod_plus_x true mode).testBit 3 = true ∧
        (Generator._chmod_plus_x true mode).testBit 6 = true ∧
        (∀ i, i ≠ 0 → i ≠ 3 → i ≠ 6 →
          (Generator._chmod_plus_x true mode).testBit i = mode.testBit i) ∧
        Generator._chmod_plus_x false mode = mode) := by
  constructor
  · unfold DirectoryGenerator.invoke at h
    cases hdl : st.dep_lib_dirs with
    | cons a as =>
      rw [hdl] at h
      exact Except.noConfusion h
    | nil =>
      rw [hdl] at h
      have h2 : ({ depTree := stageCopyMap fs st.dep_bin_dirs emptyDest, importsCommand := ["conan", "imports", "-if", tmpdir, "-imf", dest, "."], execDest := joinPath dest st.executable } : InvokeResult) = r := by
        injection h
      rw [← h2]
  · intro mode
    have t0 : Nat.testBit 73 0 = true := by decide
    have t3 : Nat.testBit 73 3 = true := by decide
    have t6 : Nat.testBit 73 6 = true := by decide
    refine ⟨rfl, ?_, ?_, ?_, ?_, rfl⟩
    · show (mode ||| 73).testBit 0 = true
      rw [Nat.testBit_lor, t0, Bool.or_true]
    · show (mode ||| 73).testBit 3 = true
      rw [Nat.testBit_lor, t3, Bool.or_true]
    · show (mode ||| 73).testBit 6 = true
      rw [Nat.testBit_lor, t6, Bool.or_true]
    · intro i h0 h3 h6
      show (mode ||| 73).testBit i = mode.testBit i
      rw [Nat.testBit_lor, testBit_73_eq_false i h0 h3 h6, Bool.or_false]

/-- Witness for `invoke_executable_destination_and_chmod` at a concrete
invocation. -/
theorem invoke_executable_destination_and_chmod_witness :
    ∃ r, DirectoryGenerator.invoke (fun _ => []) "/tmp"
        ⟨"myapp", "bin/myapp", [], [], [], []⟩ "out" = Except.ok r ∧
      (r.execDest = joinPath "out" "bin/myapp" ∧
        Generator._chmod_plus_x true 0o644 = 0o644 ||| 0o111 ∧
        Generator._chmod_plus_x false 0o644 = 0o644) := by
  refine ⟨_, rfl, ?_⟩
  have h := invoke_executable_destination_and_chmod (fun _ => []) "/tmp"
      ⟨"myapp", "bin/myapp", [], [], [], []⟩ "out" _ rfl
  exact ⟨h.1, (h.2 0o644).1, (h.2 0o644).2.2.2.2.2⟩

theorem initDep_single_lib (rp : String → String → String)
    (ld : String → Option (List String)) (root p : String) (st : GenState) :
    initDep rp ld st ⟨root, [p], []⟩ = processLibPath rp ld root st p := by
  unfold initDep
  dsimp only
  rw [List.foldlM_cons]
  cases hp : processLibPath rp ld root st p with
  | error e => rfl
  | ok t => rfl

theorem Generator_init_two (rp : String → String → String)
    (ld : String → Option (List String)) (config : Config) (d1 d2 : Dependency) :
    Generator.init rp ld config ⟨[d1, d2]⟩ =
      (initDep rp ld ⟨config.name, config.executable, [], [], [], []⟩ d1) >>=
        fun t => initDep rp ld t d2 := by
  unfold Generator.init
  dsimp only
  rw [List.foldlM_cons]
  cases h1 : initDep rp ld ⟨config.name, config.executable, [], [], [], []⟩ d1 with
  | error e => rfl
  | ok t =>
    rw [except_ok_bind, except_ok_bind, List.foldlM_cons]
    cases h2 : initDep rp ld t d2 with
    | error e => rfl
    | ok u => rfl

/-- C2: for two dependencies whose non-empty library paths `A` and `B`
both map to the relative directory `lib`, staging copies from BOTH
absolute source paths into the single relative destination `lib`:
`init` records both entries in the copy map, `invoke` succeeds, and the
staged `lib` directory contains exactly the union of the files of the
two sources; a file placed by the earlier copy is never deleted by the
later one, and a file of `A` not shadowed by `B` keeps its content. -/
theorem staging_merges_overlapping_lib_sources
    (rp : String → String → String) (ld : String → Option (List String))
    (fs : String → List (String × String)) (config : Config)
    (rootA rootB A B : String) (la lb : List String) (tmpdir dest : String)
    (hA : ld A = some la) (hla : la ≠ [])
    (hB : ld B = some lb) (hlb : lb ≠ [])
    (hrA : rp A rootA = "lib") (hrB : rp B rootB = "lib")
    (hAB : A ≠ B) :
    ∃ st r,
      Generator.init rp ld config ⟨[⟨rootA, [A], []⟩, ⟨rootB, [B], []⟩]⟩ = .ok st ∧
      st.dep_bin_dirs = [(A, "lib"), (B, "lib")] ∧
      DirectoryGenerator.invoke fs tmpdir st dest = .ok r ∧
      (∀ n, (r.depTree "lib" n).isSome = true ↔
        ((∃ c, (n, c) ∈ fs A) ∨ (∃ c, (n, c) ∈ fs B))) ∧
      (∀ n, (copy_tree (fs A) (emptyDest "lib") n).isSome = true →
        (r.depTree "lib" n).isSome = true) ∧
      (∀ n, (∀ c, (n, c) ∉ fs B) →
        r.depTree "lib" n = copy_tree (fs A) (emptyDest "lib") n) := by
  have hd : dictInsert [(A, "lib")] B "lib" = [(A, "lib"), (B, "lib")] := by
    unfold dictInsert
    rw [if_neg hAB]
    rfl
  have e1 : initDep rp ld ⟨config.name, config.executable, [], [], [], []⟩ ⟨rootA, [A], []⟩ =
      .ok ⟨config.name, config.executable, [], ["lib"], [], [(A, "lib")]⟩ := by
    rw [initDep_single_lib,
      processLibPath_nonempty rp ld rootA ⟨config.name, config.executable, [], [], [], []⟩ A la hA hla,
      hrA]
    rfl
  have e2 : initDep rp ld ⟨config.name, config.executable, [], ["lib"], [], [(A, "lib")]⟩
      ⟨rootB, [B], []⟩ =
      .ok ⟨config.name, config.executable, [], ["lib"], [], [(A, "lib"), (B, "lib")]⟩ := by
    rw [initDep_single_lib,
      processLibPath_nonempty rp ld rootB
        ⟨config.name, config.executable, [], ["lib"], [], [(A, "lib")]⟩ B lb hB hlb,
      hrB]
    show Except.ok ({ name := config.name, executable := config.executable, bin_dirs := [], lib_dirs := setAdd ["lib"] "lib", dep_lib_dirs := [], dep_bin_dirs := dictInsert [(A, "lib")] B "lib" } : GenState) = _
    rw [hd]
    rfl
  have hst : Generator.init rp ld config ⟨[⟨rootA, [A], []⟩, ⟨rootB, [B], []⟩]⟩ =
      .ok ⟨config.name, config.executable, [], ["lib"], [], [(A, "lib"), (B, "lib")]⟩ := by
    rw [Generator_init_two rp ld config ⟨rootA, [A], []⟩ ⟨rootB, [B], []⟩, e1, except_ok_bind, e2]
  refine ⟨⟨config.name, config.executable, [], ["lib"], [], [(A, "lib"), (B, "lib")]⟩,
    ⟨stageCopyMap fs [(A, "lib"), (B, "lib")] emptyDest,
      ["conan", "imports", "-if", tmpdir, "-imf", dest, "."],
      joinPath dest config.executable⟩, hst, rfl, rfl, ?_, ?_, ?_⟩
  · intro n
    show (copy_tree (fs B) (copy_tree (fs A) (emptyDest "lib")) n).isSome = true ↔ _
    rw [copy_tree_isSome, copy_tree_isSome]
    constructor
    · rintro (hInB | hInA | hE)
      · exact Or.inr hInB
      · exact Or.inl hInA
      · exact Bool.noConfusion hE
    · rintro (hInA | hInB)
      · exact Or.inr (Or.inl hInA)
      · exact Or.inl hInB
  · intro n hn
    show (copy_tree (fs B) (copy_tree (fs A) (emptyDest "lib")) n).isSome = true
    rw [copy_tree_isSome]
    exact Or.inr hn
  · intro n hnB
    show copy_tree (fs B) (copy_tree (fs A) (emptyDest "lib")) n = _
    exact copy_tree_not_mem n (fs B) _ hnB

/-- Witness for `staging_merges_overlapping_lib_sources` at concrete
dependencies. -/
theorem staging_merges_overlapping_lib_sources_witness :
    ∃ st r,
      Generator.init (fun _ _ => "lib") (fun _ => some ["x"]) ⟨"app", "app"⟩
          ⟨[⟨"/a", ["/a/lib"], []⟩, ⟨"/b", ["/b/lib"], []⟩]⟩ = .ok st ∧
      st.dep_bin_dirs = [("/a/lib", "lib"), ("/b/lib", "lib")] ∧
      DirectoryGenerator.invoke
          (fun p => if p = "/a/lib" then [("fa", "ca")] else [("fb", "cb")]) "/tmp" st "out" =
        .ok r ∧
      (∀ n, (r.depTree "lib" n).isSome = true ↔
        ((∃ c, (n, c) ∈ (if "/a/lib" = "/a/lib" then [("fa", "ca")] else [("fb", "cb")])) ∨
          (∃ c, (n, c) ∈ (if "/b/lib" = "/a/lib" then [("fa", "ca")] else [("fb", "cb")])))) ∧
      (∀ n, (copy_tree (if "/a/lib" = "/a/lib" then [("fa", "ca")] else [("fb", "cb")])
          (emptyDest "lib") n).isSome = true → (r.depTree "lib" n).isSome = true) ∧
      (∀ n, (∀ c, (n, c) ∉ (if "/b/lib" = "/a/lib" then [("fa", "ca")] else [("fb", "cb")])) →
        r.depTree "lib" n =
          copy_tree (if "/a/lib" = "/a/lib" then [("fa", "ca")] else [("fb", "cb")])
            (emptyDest "lib") n) :=
  staging_merges_overlapping_lib_sources (fun _ _ => "lib") (fun _ => some ["x"])
    (fun p => if p = "/a/lib" then [("fa", "ca")] else [("fb", "cb")]) ⟨"app", "app"⟩
    "/a" "/b" "/a/lib" "/b/lib" ["x"] ["x"] "/tmp" "out"
    rfl (by decide) rfl (by decide) rfl rfl (by decide)
